import Mathlib

/-!
# Verification of the Immortal_Chat webhook dispatch pipeline

Shallow embedding of the Go sources of `Missyubibii/Immortal_Chat`:

* `internal/adapters/dto/facebook.go` — webhook envelope DTOs and the
  payload classifier (`IsUserMessage`, `GetMessageID`, `GetMessageType`,
  `GetContent`).
* `internal/core/services/dispatcher.go` — `Dispatcher.ProcessWebhook`
  and `Dispatcher.processMessage`, modelled with explicit store oracles
  and an explicit trace of store operations.
* the webhook HTTP handler (`WebhookHandler.HandleFacebookEvent`,
  `WebhookHandler.validateSignature`).
* the outbound gateway (`FacebookClient.SendReply`) with its retry loop.
* `internal/adapters/handler/dashboard.go` — `DashboardHandler.SendReply`.
* `internal/adapters/repository/mariadb_repo.go` —
  `MariaDBRepository.GetOrCreateByPlatformID`, `MariaDBRepository.DeactivatePage`.

Conventions: Go byte slices are `List Nat` (each entry one byte), Go
strings used only as opaque text are Lean `String`; header strings that
are inspected byte-wise are `List Char`.  Blocking store calls are
modelled by oracle records whose fields give the call's result; the
operations actually performed are collected in an explicit trace list.
Library calls that are not part of this repository (JSON decoding,
HMAC-SHA256) are parameters of the embedding.
-/

namespace ImmortalChat

/-! ## DTO layer (`internal/adapters/dto/facebook.go`) -/

/-- Go `FacebookUser` — a sender or recipient (PSID). -/
structure FacebookUser where
  id : String
deriving Repr, DecidableEq

/-- Go `FacebookAttachmentPayload` — attachment URL and metadata. -/
structure FacebookAttachmentPayload where
  url : String
deriving Repr, DecidableEq

/-- Go `FacebookAttachment` — a media attachment (`type` + payload). -/
structure FacebookAttachment where
  type : String
  payload : FacebookAttachmentPayload
deriving Repr, DecidableEq

/-- Go `FacebookMessage` — the actual message content of a messaging event. -/
structure FacebookMessage where
  mid : String
  text : String
  attachments : List FacebookAttachment
  isEcho : Bool
deriving Repr, DecidableEq

/-- Go `FacebookDelivery` — a delivery confirmation. -/
structure FacebookDelivery where
  mids : List String
  watermark : Int
deriving Repr, DecidableEq

/-- Go `FacebookRead` — a read confirmation. -/
structure FacebookRead where
  watermark : Int
deriving Repr, DecidableEq

/-- Go `FacebookMessaging` — a single messaging event.  The Go pointer
fields `Message`, `Delivery`, `Read` become `Option`s (nil = `none`). -/
structure FacebookMessaging where
  sender : FacebookUser
  recipient : FacebookUser
  timestamp : Int
  message : Option FacebookMessage
  delivery : Option FacebookDelivery
  read : Option FacebookRead
deriving Repr, DecidableEq

/-- Go `FacebookEntry` — a single page's webhook events. -/
structure FacebookEntry where
  id : String
  time : Int
  messaging : List FacebookMessaging
deriving Repr, DecidableEq

/-- Go `FacebookWebhookRequest` — the top-level webhook payload. -/
structure FacebookWebhookRequest where
  object : String
  entry : List FacebookEntry
deriving Repr, DecidableEq

/-- Go `FacebookMessaging.IsUserMessage` (facebook.go): false when the
message body is missing, when the echo flag is set, or when a
delivery or read marker is present; true otherwise. -/
def FacebookMessaging.IsUserMessage (m : FacebookMessaging) : Bool :=
  match m.message with
  | none => false
  | some msg =>
    if msg.isEcho then false
    else if m.delivery.isSome then false
    else if m.read.isSome then false
    else true

/-- Go `FacebookMessaging.GetMessageID` (facebook.go): the body's `mid` if
a message body is present, else the empty string. -/
def FacebookMessaging.GetMessageID (m : FacebookMessaging) : String :=
  match m.message with
  | some msg => msg.mid
  | none => ""

/-- Go `FacebookMessaging.GetMessageType` (facebook.go): empty string when
no message body; else the first attachment's type when attachments are
present; else `"text"` when the body text is non-empty; else `"unknown"`. -/
def FacebookMessaging.GetMessageType (m : FacebookMessaging) : String :=
  match m.message with
  | none => ""
  | some msg =>
    match msg.attachments with
    | a :: _ => a.type
    | [] => if msg.text ≠ "" then "text" else "unknown"

/-- Go `FacebookMessaging.GetContent` (facebook.go): the body text when
non-empty, else the first attachment's URL when present and non-empty,
else the empty string. -/
def FacebookMessaging.GetContent (m : FacebookMessaging) : String :=
  match m.message with
  | none => ""
  | some msg =>
    if msg.text ≠ "" then msg.text
    else
      match msg.attachments with
      | a :: _ => if a.payload.url ≠ "" then a.payload.url else ""
      | [] => ""

/-! ## Domain model (`internal/core/domain/models.go`)

Only fields the dispatch pipeline writes are kept: `ID` (assigned by the
database) and `CreatedAt` (wall-clock time) are outside the embedding.
The `Attachments` field is a `json.RawMessage` in Go, produced by
serializing the attachment list (`"[]"` when empty); the embedding keeps
the serialized data as the list itself. -/

/-- Go `domain.Message` — one chat message. -/
structure Message where
  conversationID : Int
  senderID : Option String
  senderType : String
  content : Option String
  attachments : List FacebookAttachment
  type : Option String
  isSynced : Bool
  externalMsgID : Option String
deriving Repr, DecidableEq

/-- Go `domain.Page` — a connected messaging-platform page. -/
structure Page where
  id : Int
  tenantID : Int
  platform : String
  pageID : String
  pageName : Option String
  accessToken : String
  isActive : Bool
deriving Repr, DecidableEq

/-! ## Store oracles and operation traces

The dispatcher talks to its repositories through the `ports`
interfaces.  Each blocking call is modelled by an oracle field that
yields the call's result; the trace of calls actually made is
collected in a `List StoreOp`. -/

/-- Database/cache-level failure, as seen through the repository
interfaces. `duplicateKey` is the MariaDB uniqueness-conflict error. -/
inductive DbError where
  | duplicateKey : DbError
  | unavailable : DbError
  | other : String → DbError
deriving Repr, DecidableEq

/-- One store operation performed by the dispatch pipeline. -/
inductive StoreOp where
  | saveLog : String → StoreOp
  | isDuplicate : String → StoreOp
  | getOrCreate : Int → String → String → StoreOp
  | saveMessage : Message → StoreOp
  | markProcessed : String → Nat → StoreOp
deriving Repr, DecidableEq

/-- Results of the repository calls the dispatcher can make
(`ports.DedupRepository`, `ports.ConversationRepository`,
`ports.MessageRepository`). -/
structure StoreOracle where
  isDuplicate : String → Except DbError Bool
  getOrCreateByPlatformID : Int → String → String → Except DbError Int
  saveMessage : Message → Except DbError Unit
  markProcessed : String → Nat → Except DbError Unit

/-! ## Dispatcher (`internal/core/services/dispatcher.go`) -/

/-- Go `Dispatcher.processMessage` (dispatcher.go): dedup check (error →
fail with `"dedup check failed"`, duplicate → skip with success),
conversation get-or-create with the fixed default tenant 1, message
build with role `"user"`, save, then dedup mark with TTL 24 hours whose
failure is only logged.  Returns the Go error result together with the
trace of store calls made.  (The Go code dereferences
`messaging.Message` when building the message; under the
`IsUserMessage` guard of `ProcessWebhook` the body is always present,
and the embedding uses `[]` for the unreachable `none` case.) -/
def Dispatcher.processMessage (o : StoreOracle) (m : FacebookMessaging) :
    Except String Unit × List StoreOp :=
  let messageID := m.GetMessageID
  match o.isDuplicate messageID with
  | .error _ => (.error "dedup check failed", [.isDuplicate messageID])
  | .ok true => (.ok (), [.isDuplicate messageID])
  | .ok false =>
    let tenantID : Int := 1
    let platformID := m.sender.id
    let pageID := m.recipient.id
    match o.getOrCreateByPlatformID tenantID platformID pageID with
    | .error _ =>
        (.error "get/create conversation failed",
         [.isDuplicate messageID, .getOrCreate tenantID platformID pageID])
    | .ok conversationID =>
        let content := m.GetContent
        let msgType := m.GetMessageType
        let attachments := match m.message with
          | some msg => msg.attachments
          | none => []
        let message : Message :=
          { conversationID := conversationID
            senderID := some m.sender.id
            senderType := "user"
            content := some content
            attachments := attachments
            type := some msgType
            isSynced := false
            externalMsgID := some messageID }
        match o.saveMessage message with
        | .error _ =>
            (.error "save message failed",
             [.isDuplicate messageID, .getOrCreate tenantID platformID pageID,
              .saveMessage message])
        | .ok _ =>
            (.ok (),
             [.isDuplicate messageID, .getOrCreate tenantID platformID pageID,
              .saveMessage message, .markProcessed messageID 24])

/-- Aggregate outcome of one `ProcessWebhook` call: the two counters of
the final log line and the trace of store operations performed. -/
structure WebhookOutcome where
  processedCount : Nat
  skippedCount : Nat
  ops : List StoreOp
deriving Repr, DecidableEq

/-- Body of the per-event loop of `Dispatcher.ProcessWebhook`: filter by
`IsUserMessage` (incrementing the skip counter), otherwise run
`processMessage`, incrementing the processed counter on success and
only logging on failure. -/
def Dispatcher.processEventStep (o : StoreOracle) (acc : WebhookOutcome)
    (messaging : FacebookMessaging) : WebhookOutcome :=
  if !messaging.IsUserMessage then
    { acc with skippedCount := acc.skippedCount + 1 }
  else
    match Dispatcher.processMessage o messaging with
    | (.ok _, ops) =>
        { acc with processedCount := acc.processedCount + 1, ops := acc.ops ++ ops }
    | (.error _, ops) => { acc with ops := acc.ops ++ ops }

/-- Go `Dispatcher.ProcessWebhook` (dispatcher.go).  JSON decoding of the
raw payload is a library call, so the embedding receives the decode
result (`none` = `json.Unmarshal` error).  The async audit-log save is
spawned before parsing and always performed, so `saveLog` heads the
trace; a parse failure aborts with no further store calls; otherwise
the nested entry/messaging loops run `processEventStep`. -/
def Dispatcher.ProcessWebhook (o : StoreOracle) (platform : String)
    (parsed : Option FacebookWebhookRequest) : WebhookOutcome :=
  let init : WebhookOutcome :=
    { processedCount := 0, skippedCount := 0, ops := [.saveLog platform] }
  match parsed with
  | none => init
  | some fbPayload =>
      fbPayload.entry.foldl
        (fun acc entry => entry.messaging.foldl (Dispatcher.processEventStep o) acc)
        init

/-- The messaging events of a payload, in processing order (the
flattening of the nested loops of `ProcessWebhook`). -/
def webhookEvents (p : FacebookWebhookRequest) : List FacebookMessaging :=
  (p.entry.map (·.messaging)).flatten

/-- The store operations one messaging event contributes to a
`ProcessWebhook` call: none when the event fails the user-message
filter, the `processMessage` trace otherwise. -/
def eventOps (o : StoreOracle) (m : FacebookMessaging) : List StoreOp :=
  if m.IsUserMessage then (Dispatcher.processMessage o m).2 else []

/-- Whether one messaging event increments the processed counter of a
`ProcessWebhook` call. -/
def eventProcessed (o : StoreOracle) (m : FacebookMessaging) : Bool :=
  m.IsUserMessage &&
    (match (Dispatcher.processMessage o m).1 with
     | .ok _ => true
     | .error _ => false)

/-! ## Signature verifier (`WebhookHandler.validateSignature`)

Go strings and byte slices inspected byte-wise are `List Char` here.
`hex.EncodeToString` uses the table `"0123456789abcdef"`, so the
encoding is lowercase.  `hmac.Equal` on the two ASCII hex strings is a
(constant-time) byte-slice equality, i.e. list equality.  The
HMAC-SHA256 computation itself is Go library code, so it enters the
embedding as a parameter `hmacSha256 : secret → payload → digest`. -/

/-- The `encoding/hex` digit table lookup: `hextable[n]` for `n < 16`. -/
def hexDigit (n : Nat) : Char :=
  "0123456789abcdef".data.getD n '0'

/-- Go `hex.EncodeToString`: each byte becomes `hextable[b>>4]` then
`hextable[b&0x0f]` (bytes are values `< 256`). -/
def hexEncode (bytes : List Nat) : List Char :=
  (bytes.map (fun b => [hexDigit (b / 16 % 16), hexDigit (b % 16)])).flatten

/-- Go `WebhookHandler.validateSignature` (webhook handler source): require
the `"sha256="` prefix, strip it (`strings.TrimPrefix` after the
`HasPrefix` check), hex-encode the HMAC-SHA256 of the payload under the
app secret, and compare with `hmac.Equal`. -/
def WebhookHandler.validateSignature
    (hmacSha256 : List Char → List Nat → List Nat)
    (appSecret : List Char) (payload : List Nat)
    (signatureHeader : List Char) : Bool :=
  let pre := "sha256=".data
  if pre.isPrefixOf signatureHeader then
    let expectedSignature := signatureHeader.drop pre.length
    let computedSignature := hexEncode (hmacSha256 appSecret payload)
    computedSignature == expectedSignature
  else
    false

/-! ## HTTP webhook handler (`WebhookHandler.HandleFacebookEvent`)

The request body is the byte slice `io.ReadAll` returned (a read
failure answers 400 before the signature check and is outside this
model).  `r.Header.Get` yields `""` for a missing header, so a missing
`X-Hub-Signature-256` is the empty list. -/

/-- A POST webhook request as seen after the body read. -/
structure HttpRequest where
  body : List Nat
  signatureHeader : List Char

/-- The single side effect the handler can trigger: handing the raw
body to the Dispatcher (in a goroutine, after the response). -/
inductive HandlerEffect where
  | dispatch : String → List Nat → HandlerEffect
deriving Repr, DecidableEq

/-- The handler's observable outcome: HTTP status, response body, and
the dispatch effects triggered. -/
structure HttpResult where
  status : Nat
  body : String
  effects : List HandlerEffect
deriving Repr, DecidableEq

/-- Go `WebhookHandler.HandleFacebookEvent` (webhook handler source):
missing signature header → 403, invalid signature → 403 (no dispatch in
either case); valid → 200 `"EVENT_RECEIVED"` and one asynchronous
dispatch of the raw body with platform `"facebook"`. -/
def WebhookHandler.HandleFacebookEvent
    (hmacSha256 : List Char → List Nat → List Nat)
    (appSecret : List Char) (req : HttpRequest) : HttpResult :=
  let signature := req.signatureHeader
  if signature = [] then
    { status := 403, body := "Forbidden - No signature", effects := [] }
  else if !(WebhookHandler.validateSignature hmacSha256 appSecret req.body signature) then
    { status := 403, body := "Forbidden - Invalid signature", effects := [] }
  else
    { status := 200, body := "EVENT_RECEIVED",
      effects := [.dispatch "facebook" req.body] }

/-- The store operations a handler outcome leads to, once the spawned
dispatch goroutines run: each dispatch effect contributes the trace of
`Dispatcher.ProcessWebhook` on its payload (`parse` is the
`json.Unmarshal` result on the raw bytes). -/
def handlerStoreOps (o : StoreOracle)
    (parse : List Nat → Option FacebookWebhookRequest)
    (res : HttpResult) : List StoreOp :=
  (res.effects.map (fun e =>
    match e with
    | .dispatch platform payload =>
        (Dispatcher.ProcessWebhook o platform (parse payload)).ops)).flatten

/-! ## Outbound gateway (`FacebookClient.SendReply`)

A single `sendReplyAttempt` is an HTTP exchange with the Graph API; its
classified outcome enters the embedding as an oracle
`f : Nat → Option SendError` giving the result of attempt `n`
(`none` = success).  The observable behaviour of the retry loop is the
final result, the attempts made, and the backoff sleeps (in ms). -/

/-- The error taxonomy of the gateway: the three sentinel errors plus
everything else (wrapped error messages). -/
inductive SendError where
  | tokenExpired : SendError
  | rateLimited : SendError
  | permissionDenied : SendError
  | other : String → SendError
deriving Repr, DecidableEq

/-- The errors `SendReply` refuses to retry
(`errors.Is` against `ErrTokenExpired`, `ErrPermissionDenied`,
`ErrRateLimited`). -/
def SendError.isTerminal : SendError → Bool
  | .tokenExpired => true
  | .rateLimited => true
  | .permissionDenied => true
  | .other _ => false

/-- Observable outcome of `SendReply`: the result, the attempt numbers
executed in order, and the `time.Sleep` backoffs in milliseconds. -/
structure SendOutcome where
  result : Except SendError Unit
  attempts : List Nat
  sleepsMs : List Nat
deriving Repr

/-- The retry loop of `SendReply`, unrolled structurally on the number
of remaining attempts: run attempt `attempt`; success → done; terminal
error → return it; otherwise sleep `attempt × 500` ms (only when
`attempt < maxRetries = 3`) and continue.  Exhausting the loop returns
`"failed after 3 attempts"`. -/
def FacebookClient.sendReplyAux (f : Nat → Option SendError) :
    Nat → Nat → List Nat → List Nat → SendOutcome
  | 0, _, atts, sleeps =>
      { result := .error (.other "failed after 3 attempts"),
        attempts := atts, sleepsMs := sleeps }
  | remaining + 1, attempt, atts, sleeps =>
      let atts := atts ++ [attempt]
      match f attempt with
      | none => { result := .ok (), attempts := atts, sleepsMs := sleeps }
      | some e =>
          if e.isTerminal then
            { result := .error e, attempts := atts, sleepsMs := sleeps }
          else
            let sleeps := if attempt < 3 then sleeps ++ [attempt * 500] else sleeps
            FacebookClient.sendReplyAux f remaining (attempt + 1) atts sleeps

/-- Go `FacebookClient.SendReply` (gateway source): `maxRetries = 3`,
attempts numbered from 1. -/
def FacebookClient.SendReply (f : Nat → Option SendError) : SendOutcome :=
  FacebookClient.sendReplyAux f 3 1 [] []

/-! ## Dashboard reply handler (`internal/adapters/handler/dashboard.go`) -/

/-! ### Operator-facing response strings of `DashboardHandler.SendReply`
copied byte-for-byte from `dashboard.go` (whose literals are
double-encoded UTF-8 in the source file). -/

/-- Response string from `dashboard.go`. -/
def msgInvalidBody : String :=
  "Dá»¯ liá»‡u khÃ´ng há»£p lá»‡"

/-- Response string from `dashboard.go`. -/
def msgMissingConversationID : String :=
  "Thiáº¿u ID há»™i thoáº¡i"

/-- Response string from `dashboard.go`. -/
def msgEmptyText : String :=
  "Ná»™i dung tin nháº¯n khÃ´ng Ä‘Æ°á»£c Ä‘á»ƒ trá»‘ng"

/-- Response string from `dashboard.go`. -/
def msgConversationNotFound : String :=
  "KhÃ´ng tÃ¬m tháº¥y há»™i thoáº¡i"

/-- Response string from `dashboard.go`. -/
def msgConversationLookupFailed : String :=
  "Lá»—i há»‡ thá»‘ng khi tra cá»©u há»™i thoáº¡i"

/-- Response string from `dashboard.go`. -/
def msgPageConfigError : String :=
  "Lá»—i cáº¥u hÃ¬nh Fanpage. Vui lÃ²ng liÃªn há»‡ quáº£n trá»‹ viÃªn"

/-- Response string from `dashboard.go`. -/
def msgPageDisconnected : String :=
  "Fanpage Ä‘Ã£ máº¥t káº¿t ná»‘i vá»›i Facebook. Vui lÃ²ng káº¿t ná»‘i láº¡i trong pháº§n CÃ i Ä‘áº·t"

/-- Response string from `dashboard.go`. -/
def msgRateLimited : String :=
  "Báº¡n Ä‘ang gá»­i tin quÃ¡ nhanh. Vui lÃ²ng chá» vÃ i giÃ¢y rá»“i thá»­ láº¡i"

/-- Response string from `dashboard.go`. -/
def msgPermissionDenied : String :=
  "Fanpage khÃ´ng cÃ³ quyá»n gá»­i tin nháº¯n. Vui lÃ²ng kiá»ƒm tra cÃ i Ä‘áº·t Facebook"

/-- Response string from `dashboard.go`. -/
def msgSendFailed : String :=
  "KhÃ´ng thá»ƒ gá»­i tin nháº¯n. Vui lÃ²ng thá»­ láº¡i sau"

/-- Response string from `dashboard.go`. -/
def msgSendSuccess : String :=
  "Tin nháº¯n Ä‘Ã£ Ä‘Æ°á»£c gá»­i thÃ nh cÃ´ng"

/-- Go `unicode.IsSpace` restricted to the Latin-1 range, the character
class `strings.TrimSpace` trims. -/
def isGoSpace (c : Char) : Bool :=
  c = ' ' || c = '\t' || c = '\n' || c = '\x0B' || c = '\x0C' || c = '\r' ||
    c = '\x85' || c = '\xA0'

/-- Go `strings.TrimSpace`: drop leading and trailing white space. -/
def trimSpace (s : String) : String :=
  ⟨((s.data.dropWhile isGoSpace).reverse.dropWhile isGoSpace).reverse⟩

/-- The parsed `ReplyRequest` body of `POST /api/messages/reply`. -/
structure ReplyRequest where
  conversationID : Int
  text : String
deriving Repr, DecidableEq

/-- A side effect of the dashboard reply handler. -/
inductive DashboardEffect where
  | deactivatePage : String → DashboardEffect
  | saveOutboundMessage : Int → String → DashboardEffect
  | updateConversationLastMessage : Int → String → DashboardEffect
deriving Repr, DecidableEq

/-- The handler's observable outcome: HTTP status, envelope message,
and side effects performed before the response is written. -/
structure DashboardResult where
  status : Nat
  message : String
  effects : List DashboardEffect
deriving Repr, DecidableEq

/-- Results of the handler's collaborator calls: the conversation
lookup (`.ok none` = `sql.ErrNoRows`), the page-token lookup, and the
outcome of `FacebookClient.SendReply` classified into the gateway's
error taxonomy. -/
structure DashboardOracle where
  convLookup : Int → Except DbError (Option (String × String))
  getPageAccessToken : String → Except DbError String
  fbSendResult : String → String → String → Except SendError Unit

/-- Go `DashboardHandler.SendReply` (dashboard.go): body validation, the
conversation and token lookups, the outbound send, then the error
translation boundary.  `ErrTokenExpired` deactivates the page and
answers 400 with the operator string `msgPageDisconnected`;
`ErrRateLimited` answers 429 with `msgRateLimited` and deactivates
nothing; `ErrPermissionDenied` answers 403; other failures answer 500.
On success the outbound message save and conversation update run (their
failures are only logged) and the handler answers 200.
-/
def DashboardHandler.SendReply (o : DashboardOracle)
    (body : Option ReplyRequest) : DashboardResult :=
  match body with
  | none => { status := 400, message := msgInvalidBody, effects := [] }
  | some req =>
    if req.conversationID = 0 then
      { status := 400, message := msgMissingConversationID, effects := [] }
    else if trimSpace req.text = "" then
      { status := 400, message := msgEmptyText, effects := [] }
    else
      match o.convLookup req.conversationID with
      | .ok none => { status := 404, message := msgConversationNotFound, effects := [] }
      | .error _ => { status := 500, message := msgConversationLookupFailed, effects := [] }
      | .ok (some (platformID, pageID)) =>
        match o.getPageAccessToken pageID with
        | .error _ => { status := 500, message := msgPageConfigError, effects := [] }
        | .ok accessToken =>
          match o.fbSendResult platformID accessToken req.text with
          | .error .tokenExpired =>
              { status := 400, message := msgPageDisconnected,
                effects := [.deactivatePage pageID] }
          | .error .rateLimited =>
              { status := 429, message := msgRateLimited, effects := [] }
          | .error .permissionDenied =>
              { status := 403, message := msgPermissionDenied, effects := [] }
          | .error (.other _) =>
              { status := 500, message := msgSendFailed, effects := [] }
          | .ok _ =>
              { status := 200, message := msgSendSuccess,
                effects := [.saveOutboundMessage req.conversationID req.text,
                            .updateConversationLastMessage req.conversationID req.text] }

/-! ## MariaDB repository (`internal/adapters/repository/mariadb_repo.go`) -/

/-- Go `MariaDBRepository.DeactivatePage` (mariadb_repo.go): the effect of
`UPDATE pages SET is_active = FALSE WHERE page_id = ?` on the pages
table. -/
def MariaDBRepository.DeactivatePage (pages : List Page) (pageID : String) :
    List Page :=
  pages.map (fun p => if p.pageID = pageID then { p with isActive := false } else p)

/-- Applying the dashboard handler's effects to the pages table: only
`deactivatePage` touches it. -/
def applyDashboardEffects (pages : List Page) (effects : List DashboardEffect) :
    List Page :=
  effects.foldl
    (fun ps e =>
      match e with
      | .deactivatePage pid => MariaDBRepository.DeactivatePage ps pid
      | .saveOutboundMessage _ _ => ps
      | .updateConversationLastMessage _ _ => ps)
    pages

/-- Results of the two SQL statements `GetOrCreateByPlatformID` issues
for a `(tenantId, platformUserId, pageId)` triple: the `SELECT id`
lookup (`.ok none` = `sql.ErrNoRows`) and the `INSERT` (`.ok id` =
`LastInsertId`; `.error .duplicateKey` = a uniqueness conflict on the
`unique_conversation (tenant_id, platform_id, page_id)` key). -/
structure ConvDbOracle where
  selectConv : Int → String → String → Except DbError (Option Int)
  insertConv : Int → String → String → Except DbError Int

/-- Go `MariaDBRepository.GetOrCreateByPlatformID` (mariadb_repo.go):
return the looked-up id when the row exists; propagate a lookup error
as `"query conversation"`; on `sql.ErrNoRows`, insert a fresh
conversation, propagating any insert error — including a uniqueness
conflict — as `"create conversation"` (there is no retry of the
lookup). -/
def MariaDBRepository.GetOrCreateByPlatformID (o : ConvDbOracle)
    (tenantID : Int) (platformID pageID : String) : Except String Int :=
  match o.selectConv tenantID platformID pageID with
  | .ok (some id) => .ok id
  | .error _ => .error "query conversation"
  | .ok none =>
    match o.insertConv tenantID platformID pageID with
    | .error _ => .error "create conversation"
    | .ok id => .ok id

/-! ## Concrete example values

Used to evaluate the embedded definitions at specific inputs. -/

/-- A plain text user message body. -/
def msgEx : FacebookMessage :=
  { mid := "mid_1", text := "hello", attachments := [], isEcho := false }

/-- A genuine inbound user-message event. -/
def mUserEx : FacebookMessaging :=
  { sender := ⟨"user_1"⟩, recipient := ⟨"page_1"⟩, timestamp := 0,
    message := some msgEx, delivery := none, read := none }

/-- An echo message body (`is_echo = true`). -/
def msgEchoEx : FacebookMessage :=
  { mid := "mid_2", text := "echo", attachments := [], isEcho := true }

/-- An echo event: the page's own outbound message echoed back. -/
def mEchoEx : FacebookMessaging :=
  { sender := ⟨"page_1"⟩, recipient := ⟨"user_1"⟩, timestamp := 0,
    message := some msgEchoEx, delivery := none, read := none }

/-- An event with no message body at all (e.g. a bare event). -/
def mNoBodyEx : FacebookMessaging :=
  { sender := ⟨"user_2"⟩, recipient := ⟨"page_1"⟩, timestamp := 0,
    message := none, delivery := none, read := none }

/-- A delivery-receipt event. -/
def mDeliveryEx : FacebookMessaging :=
  { sender := ⟨"user_1"⟩, recipient := ⟨"page_1"⟩, timestamp := 0,
    message := none, delivery := some ⟨["mid_1"], 17⟩, read := none }

/-- An image attachment. -/
def attEx : FacebookAttachment :=
  { type := "image", payload := { url := "https://cdn.example/img.png" } }

/-- An attachment-only message body (empty text). -/
def msgAttEx : FacebookMessage :=
  { mid := "mid_3", text := "", attachments := [attEx], isEcho := false }

/-- An attachment-only user-message event. -/
def mAttEx : FacebookMessaging :=
  { sender := ⟨"user_3"⟩, recipient := ⟨"page_1"⟩, timestamp := 0,
    message := some msgAttEx, delivery := none, read := none }

/-- A webhook payload holding one user message and one echo. -/
def payloadEx : FacebookWebhookRequest :=
  { object := "page",
    entry := [{ id := "page_1", time := 0, messaging := [mUserEx, mEchoEx] }] }

/-- A store where every call succeeds and nothing is a duplicate. -/
def storeOkEx : StoreOracle :=
  { isDuplicate := fun _ => .ok false
    getOrCreateByPlatformID := fun _ _ _ => .ok 7
    saveMessage := fun _ => .ok ()
    markProcessed := fun _ _ => .ok () }

/-- A store whose dedup check reports every id as already processed. -/
def storeDupEx : StoreOracle :=
  { storeOkEx with isDuplicate := fun _ => .ok true }

/-- A store whose dedup check fails (cache unavailable). -/
def storeDownEx : StoreOracle :=
  { storeOkEx with isDuplicate := fun _ => .error .unavailable }

/-- A stand-in HMAC-SHA256 (the digest value is irrelevant to the
handler's control flow). -/
def hmacEx : List Char → List Nat → List Nat := fun _ _ => [171, 1]

/-- An app secret. -/
def secretEx : List Char := "secret_x".data

/-- A raw request body (the bytes of `"{}"` are 123 and 125). -/
def bodyEx : List Nat := [123, 125]

/-- The signature header matching `hmacEx secretEx bodyEx = [0xab, 0x01]`. -/
def sigHeaderEx : List Char := "sha256=ab01".data

/-- A reply request. -/
def replyReqEx : ReplyRequest := { conversationID := 5, text := "Hello" }

/-- Dashboard collaborators where the outbound send dies on an expired
token. -/
def dashTokenExpiredEx : DashboardOracle :=
  { convLookup := fun _ => .ok (some ("user_1", "page_1"))
    getPageAccessToken := fun _ => .ok "tok"
    fbSendResult := fun _ _ _ => .error .tokenExpired }

/-- Dashboard collaborators where the outbound send is rate limited. -/
def dashRateLimitedEx : DashboardOracle :=
  { dashTokenExpiredEx with fbSendResult := fun _ _ _ => .error .rateLimited }

/-- A one-page pages table (the page is active). -/
def pagesEx : List Page :=
  [{ id := 1, tenantID := 1, platform := "facebook", pageID := "page_1",
     pageName := none, accessToken := "tok", isActive := true }]

/-- A conversation-store view for the insert race: the lookup sees no
row, the insert hits the `unique_conversation` key (a concurrent insert
of the same triple won). -/
def convRaceEx : ConvDbOracle :=
  { selectConv := fun _ _ _ => .ok none
    insertConv := fun _ _ _ => .error .duplicateKey }

/-- An attempt oracle for the gateway: a transient network failure on
attempt 1, success afterwards. -/
def fRetryEx : Nat → Option SendError :=
  fun k => if k = 1 then some (.other "network timeout") else none

/-! ## Helper lemmas -/

/-- Characterization of the user-message filter: true exactly when a
message body is present with the echo flag clear and no delivery or
read marker. -/
lemma isUserMessage_characterization (m : FacebookMessaging) :
    m.IsUserMessage = true ↔
      ((∃ msg, m.message = some msg ∧ msg.isEcho = false) ∧
        m.delivery = none ∧ m.read = none) := by
  rcases m with ⟨s, r, t, msg, d, rd⟩
  cases msg with
  | none => simp [FacebookMessaging.IsUserMessage]
  | some mm =>
    cases hmm : mm.isEcho <;> cases d <;> cases rd <;>
      simp [FacebookMessaging.IsUserMessage, hmm]

/-- Unfolding of the per-event loop: counters accumulate the counts of
processed and filtered events, and the trace accumulates the per-event
traces in order. -/
lemma foldl_processEventStep (o : StoreOracle) (l : List FacebookMessaging)
    (acc : WebhookOutcome) :
    l.foldl (Dispatcher.processEventStep o) acc =
      { processedCount := acc.processedCount + l.countP (eventProcessed o)
        skippedCount := acc.skippedCount + l.countP (fun m => !m.IsUserMessage)
        ops := acc.ops ++ (l.map (eventOps o)).flatten } := by
  induction l generalizing acc with
  | nil => simp
  | cons m t ih =>
    simp only [List.foldl_cons, List.countP_cons, List.map_cons, List.flatten_cons, ih]
    cases hu : m.IsUserMessage with
    | false =>
      simp [Dispatcher.processEventStep, eventOps, eventProcessed, hu,
        Nat.add_comm, Nat.add_assoc, Nat.add_left_comm]
    | true =>
      rcases hp : Dispatcher.processMessage o m with ⟨r, ops⟩
      cases r with
      | ok _ =>
        simp [Dispatcher.processEventStep, eventOps, eventProcessed, hu, hp,
          Nat.add_comm, Nat.add_assoc, Nat.add_left_comm]
      | error _ =>
        simp [Dispatcher.processEventStep, eventOps, eventProcessed, hu, hp,
          Nat.add_comm, Nat.add_assoc, Nat.add_left_comm]

/-- Lemma: `ProcessWebhook` on a successfully parsed payload, in closed form:
the skip counter counts the events failing the user-message filter, the
processed counter counts the events whose `processMessage` succeeded,
and the trace is the audit-log save followed by the per-event traces in
processing order. -/
lemma processWebhook_some_eq (o : StoreOracle) (platform : String)
    (p : FacebookWebhookRequest) :
    Dispatcher.ProcessWebhook o platform (some p) =
      { processedCount := (webhookEvents p).countP (eventProcessed o)
        skippedCount := (webhookEvents p).countP (fun m => !m.IsUserMessage)
        ops := .saveLog platform :: ((webhookEvents p).map (eventOps o)).flatten } := by
  have h : Dispatcher.ProcessWebhook o platform (some p) =
      (webhookEvents p).foldl (Dispatcher.processEventStep o)
        { processedCount := 0, skippedCount := 0, ops := [.saveLog platform] } := by
    simp only [Dispatcher.ProcessWebhook, webhookEvents, List.foldl_flatten,
      List.foldl_map]
  rw [h, foldl_processEventStep]
  simp


/-! ## Claim theorems -/

/-- C3: For every `FacebookMessaging` event, `IsUserMessage()` returns
true if and only if the `Message` field is non-nil, `Message.IsEcho` is
false, the `Delivery` field is nil, and the `Read` field is nil. -/
theorem isUserMessage_iff (m : FacebookMessaging) :
    m.IsUserMessage = true ↔
      ((∃ msg, m.message = some msg ∧ msg.isEcho = false) ∧
        m.delivery = none ∧ m.read = none) :=
  isUserMessage_characterization m

/-- C3 witness: the iff evaluated on a concrete genuine user message. -/
theorem isUserMessage_iff_witness :
    mUserEx.IsUserMessage = true :=
  (isUserMessage_iff mUserEx).mpr ⟨⟨msgEx, rfl, rfl⟩, rfl, rfl⟩

/-- C9 counterexample: on an event with no message body at all,
`GetMessageType()` returns `""`, not `"unknown"` as the claim states. -/
theorem getMessageType_noBody_counterexample :
    mNoBodyEx.GetMessageType = "" ∧ mNoBodyEx.GetMessageType ≠ "unknown" := by
  decide

/-- C9 (amended): `GetMessageType()` returns the first attachment's
type when attachments are present; otherwise `"text"` when the body
text is non-empty; otherwise `"unknown"` when a message body is
present; and the empty string when no message body is present at
all. -/
theorem getMessageType_spec (m : FacebookMessaging) (msg : FacebookMessage) :
    (m.message = none → m.GetMessageType = "") ∧
    (m.message = some msg →
      (∀ a rest, msg.attachments = a :: rest → m.GetMessageType = a.type) ∧
      (msg.attachments = [] → msg.text ≠ "" → m.GetMessageType = "text") ∧
      (msg.attachments = [] → msg.text = "" → m.GetMessageType = "unknown")) := by
  constructor
  · intro h
    simp [FacebookMessaging.GetMessageType, h]
  · intro h
    refine ⟨?_, ?_, ?_⟩
    · intro a rest ha
      simp [FacebookMessaging.GetMessageType, h, ha]
    · intro ha ht
      simp [FacebookMessaging.GetMessageType, h, ha, ht]
    · intro ha ht
      simp [FacebookMessaging.GetMessageType, h, ha, ht]

/-- C9 witness: the amended statement evaluated on the no-body event
and on an attachment-only image message. -/
theorem getMessageType_spec_witness :
    mNoBodyEx.GetMessageType = "" ∧ mAttEx.GetMessageType = "image" :=
  ⟨(getMessageType_spec mNoBodyEx msgAttEx).1 rfl,
   ((getMessageType_spec mAttEx msgAttEx).2 rfl).1 attEx [] rfl⟩

/-- C2: For every event that passes the user-message filter, if the
dedup check errors or reports a duplicate, `processMessage` performs no
further store operations: the trace is exactly the dedup query, so
`GetOrCreateByPlatformID` is never called, `SaveMessage` is never
called, and no message is persisted. -/
theorem processMessage_dedup_failClosed (o : StoreOracle)
    (m : FacebookMessaging) (_hu : m.IsUserMessage = true)
    (h : (∃ e, o.isDuplicate m.GetMessageID = .error e) ∨
         o.isDuplicate m.GetMessageID = .ok true) :
    (Dispatcher.processMessage o m).2 = [.isDuplicate m.GetMessageID] ∧
    (∀ t p g, StoreOp.getOrCreate t p g ∉ (Dispatcher.processMessage o m).2) ∧
    (∀ msg, StoreOp.saveMessage msg ∉ (Dispatcher.processMessage o m).2) := by
  have hops : (Dispatcher.processMessage o m).2 = [.isDuplicate m.GetMessageID] := by
    rcases h with ⟨e, he⟩ | he <;> simp [Dispatcher.processMessage, he]
  refine ⟨hops, ?_, ?_⟩
  · intro t p g
    rw [hops]
    simp
  · intro msg
    rw [hops]
    simp

/-- C2 witness: the fail-closed behaviour on a concrete user message,
once with the dedup store down and once with a reported duplicate. -/
theorem processMessage_dedup_failClosed_witness :
    (Dispatcher.processMessage storeDownEx mUserEx).2 =
      [.isDuplicate mUserEx.GetMessageID] ∧
    (Dispatcher.processMessage storeDupEx mUserEx).2 =
      [.isDuplicate mUserEx.GetMessageID] :=
  ⟨(processMessage_dedup_failClosed storeDownEx mUserEx (by decide)
      (Or.inl ⟨.unavailable, rfl⟩)).1,
   (processMessage_dedup_failClosed storeDupEx mUserEx (by decide)
      (Or.inr rfl)).1⟩

/-- C7: For every messaging event with `is_echo = true`, or with a
delivery marker or a read marker present, `ProcessWebhook` creates no
message row and never queries the dedup store for that event: the
trace decomposes into per-event contributions, and such an event's
contribution is empty (it is skipped before `processMessage` is
entered). -/
theorem processWebhook_filters_echo_delivery_read (o : StoreOracle)
    (platform : String) (p : FacebookWebhookRequest) (m : FacebookMessaging)
    (hm : (∃ msg, m.message = some msg ∧ msg.isEcho = true) ∨
          m.delivery ≠ none ∨ m.read ≠ none) :
    eventOps o m = [] ∧
    (Dispatcher.ProcessWebhook o platform (some p)).ops =
      .saveLog platform :: ((webhookEvents p).map (eventOps o)).flatten := by
  have hnot : ¬((∃ msg, m.message = some msg ∧ msg.isEcho = false) ∧
      m.delivery = none ∧ m.read = none) := by
    rintro ⟨⟨msg2, hmsg2, hecho2⟩, hd, hr⟩
    rcases hm with ⟨mm, hmm, hecho⟩ | hdel | hrd
    · rw [hmm] at hmsg2
      injection hmsg2 with h2
      rw [h2] at hecho
      rw [hecho] at hecho2
      cases hecho2
    · exact hdel hd
    · exact hrd hr
  have hu : m.IsUserMessage = false := by
    cases hUM : m.IsUserMessage
    · rfl
    · exact absurd ((isUserMessage_characterization m).mp hUM) hnot
  constructor
  · simp [eventOps, hu]
  · rw [processWebhook_some_eq]

/-- C7 witness: a concrete echo event contributes no store operation,
in a payload holding one user message and one echo. -/
theorem processWebhook_filters_echo_delivery_read_witness :
    eventOps storeOkEx mEchoEx = [] ∧
    (Dispatcher.ProcessWebhook storeOkEx "facebook" (some payloadEx)).ops =
      .saveLog "facebook" :: ((webhookEvents payloadEx).map (eventOps storeOkEx)).flatten :=
  processWebhook_filters_echo_delivery_read storeOkEx "facebook" payloadEx mEchoEx
    (Or.inl ⟨msgEchoEx, rfl, rfl⟩)

/-- C10: In `ProcessWebhook`'s aggregate accounting, the skipped count
is exactly the number of events failing `IsUserMessage`, the processed
count is the number of filter-passing events whose `processMessage`
returned success, and a filter-passing event whose dedup check reports
a duplicate counts as processed (its `processMessage` returns success),
so duplicates are indistinguishable from newly persisted messages in
the final per-call counts. -/
theorem processWebhook_duplicate_counted_processed (o : StoreOracle)
    (platform : String) (p : FacebookWebhookRequest) :
    (Dispatcher.ProcessWebhook o platform (some p)).skippedCount =
      ((webhookEvents p).filter (fun m => !m.IsUserMessage)).length ∧
    (Dispatcher.ProcessWebhook o platform (some p)).processedCount =
      ((webhookEvents p).filter (eventProcessed o)).length ∧
    (∀ m : FacebookMessaging, m.IsUserMessage = true →
      o.isDuplicate m.GetMessageID = .ok true → eventProcessed o m = true) := by
  refine ⟨?_, ?_, ?_⟩
  · rw [processWebhook_some_eq]
    simp [List.countP_eq_length_filter]
  · rw [processWebhook_some_eq]
    simp [List.countP_eq_length_filter]
  · intro m hu hd
    simp [eventProcessed, hu, Dispatcher.processMessage, hd]

/-- C10 witness: with an all-duplicates dedup store, the concrete user
message still counts as processed, and on the concrete payload the
skipped count is the number of filtered events. -/
theorem processWebhook_duplicate_counted_processed_witness :
    eventProcessed storeDupEx mUserEx = true ∧
    (Dispatcher.ProcessWebhook storeDupEx "facebook" (some payloadEx)).skippedCount =
      ((webhookEvents payloadEx).filter (fun m => !m.IsUserMessage)).length :=
  ⟨(processWebhook_duplicate_counted_processed storeDupEx "facebook" payloadEx).2.2
      mUserEx (by decide) rfl,
   (processWebhook_duplicate_counted_processed storeDupEx "facebook" payloadEx).1⟩

/-- C6: For every raw body and header, `validateSignature` returns true
if and only if the header equals `"sha256="` followed by the lowercase
hex encoding of HMAC-SHA256(appSecret, body); a header without the
prefix or with a non-matching digest yields false.  (Totality is
inherent: the definition is a total Lean function over all inputs.) -/
theorem validateSignature_iff (hmacSha256 : List Char → List Nat → List Nat)
    (appSecret : List Char) (payload : List Nat) (signatureHeader : List Char) :
    WebhookHandler.validateSignature hmacSha256 appSecret payload signatureHeader = true ↔
      signatureHeader = "sha256=".data ++ hexEncode (hmacSha256 appSecret payload) := by
  simp only [WebhookHandler.validateSignature]
  by_cases hp : ("sha256=".data).isPrefixOf signatureHeader
  · obtain ⟨t, ht⟩ : "sha256=".data <+: signatureHeader :=
      List.isPrefixOf_iff_prefix.mp hp
    subst ht
    rw [if_pos hp, List.drop_left]
    constructor
    · intro h
      exact congrArg (fun l => "sha256=".data ++ l) (eq_of_beq h).symm
    · intro h
      exact beq_of_eq (List.append_cancel_left h).symm
  · rw [if_neg hp]
    simp only [Bool.false_eq_true, false_iff]
    intro heq
    exact hp (heq ▸ List.isPrefixOf_iff_prefix.mpr ⟨hexEncode (hmacSha256 appSecret payload), rfl⟩)

/-- C6 witness: the iff evaluated on a matching concrete header and on
a prefix-less header. -/
theorem validateSignature_iff_witness :
    WebhookHandler.validateSignature hmacEx secretEx bodyEx sigHeaderEx = true ∧
    WebhookHandler.validateSignature hmacEx secretEx bodyEx "ab01".data = false :=
  ⟨(validateSignature_iff hmacEx secretEx bodyEx sigHeaderEx).mpr (by decide),
   by
    cases hv : WebhookHandler.validateSignature hmacEx secretEx bodyEx "ab01".data
    · rfl
    · exact absurd ((validateSignature_iff hmacEx secretEx bodyEx "ab01".data).mp hv)
        (by decide)⟩

/-- C1: For every POST webhook request whose `X-Hub-Signature-256`
header is missing (empty, as `r.Header.Get` yields) or fails HMAC
validation, `HandleFacebookEvent` responds 403 and performs zero
dispatch side effects: no dispatch effect is triggered, so the
Dispatcher never runs and no audit record, dedup query, conversation
or message store operation results, whatever the stores and the JSON
decoder would do. -/
theorem handleFacebookEvent_authGate (hmacSha256 : List Char → List Nat → List Nat)
    (appSecret : List Char) (req : HttpRequest) (o : StoreOracle)
    (parse : List Nat → Option FacebookWebhookRequest)
    (h : req.signatureHeader = [] ∨
      WebhookHandler.validateSignature hmacSha256 appSecret req.body
        req.signatureHeader = false) :
    (WebhookHandler.HandleFacebookEvent hmacSha256 appSecret req).status = 403 ∧
    (WebhookHandler.HandleFacebookEvent hmacSha256 appSecret req).effects = [] ∧
    handlerStoreOps o parse
      (WebhookHandler.HandleFacebookEvent hmacSha256 appSecret req) = [] := by
  rcases h with h | h
  · simp [WebhookHandler.HandleFacebookEvent, h, handlerStoreOps]
  · by_cases he : req.signatureHeader = []
    · simp [WebhookHandler.HandleFacebookEvent, he, handlerStoreOps]
    · simp [WebhookHandler.HandleFacebookEvent, he, h, handlerStoreOps]

/-- C1 witness: a concrete request with no signature header is refused
with 403 and leads to no store operation. -/
theorem handleFacebookEvent_authGate_witness :
    (WebhookHandler.HandleFacebookEvent hmacEx secretEx ⟨bodyEx, []⟩).status = 403 ∧
    (WebhookHandler.HandleFacebookEvent hmacEx secretEx ⟨bodyEx, []⟩).effects = [] ∧
    handlerStoreOps storeOkEx (fun _ => some payloadEx)
      (WebhookHandler.HandleFacebookEvent hmacEx secretEx ⟨bodyEx, []⟩) = [] :=
  handleFacebookEvent_authGate hmacEx secretEx ⟨bodyEx, []⟩ storeOkEx
    (fun _ => some payloadEx) (Or.inl rfl)

/-- The retry loop executes at most `remaining` further attempts. -/
lemma sendReplyAux_attempts_le (f : Nat → Option SendError) (remaining : Nat) :
    ∀ (attempt : Nat) (atts sleeps : List Nat),
      (FacebookClient.sendReplyAux f remaining attempt atts sleeps).attempts.length ≤
        atts.length + remaining := by
  induction remaining with
  | zero =>
    intro attempt atts sleeps
    simp [FacebookClient.sendReplyAux]
  | succ n ih =>
    intro attempt atts sleeps
    simp only [FacebookClient.sendReplyAux]
    cases f attempt with
    | none => simp
    | some e =>
      by_cases he : e.isTerminal
      · simp [he]
      · simp only [he, Bool.false_eq_true, if_false]
        have h := ih (attempt + 1) (atts ++ [attempt])
          (if attempt < 3 then sleeps ++ [attempt * 500] else sleeps)
        simp at h
        omega

/-- C4: `SendReply` attempts delivery at most 3 times; a terminal
failure (`ErrTokenExpired`, `ErrRateLimited`, `ErrPermissionDenied`) at
any attempt returns that error immediately, with no further attempt and
no backoff sleep after it; a non-terminal failure sleeps
`attempt × 500` ms (500 ms before attempt 2, 1000 ms before attempt 3)
and retries; and three non-terminal failures return the error
`"failed after 3 attempts"`. -/
theorem sendReply_retry_policy (f : Nat → Option SendError) :
    (FacebookClient.SendReply f).attempts.length ≤ 3 ∧
    (f 1 = none → FacebookClient.SendReply f = ⟨.ok (), [1], []⟩) ∧
    (∀ e, f 1 = some e → e.isTerminal = true →
      FacebookClient.SendReply f = ⟨.error e, [1], []⟩) ∧
    (∀ m, f 1 = some (.other m) → f 2 = none →
      FacebookClient.SendReply f = ⟨.ok (), [1, 2], [500]⟩) ∧
    (∀ m e, f 1 = some (.other m) → f 2 = some e → e.isTerminal = true →
      FacebookClient.SendReply f = ⟨.error e, [1, 2], [500]⟩) ∧
    (∀ m₁ m₂, f 1 = some (.other m₁) → f 2 = some (.other m₂) → f 3 = none →
      FacebookClient.SendReply f = ⟨.ok (), [1, 2, 3], [500, 1000]⟩) ∧
    (∀ m₁ m₂ e, f 1 = some (.other m₁) → f 2 = some (.other m₂) →
      f 3 = some e → e.isTerminal = true →
      FacebookClient.SendReply f = ⟨.error e, [1, 2, 3], [500, 1000]⟩) ∧
    (∀ m₁ m₂ m₃, f 1 = some (.other m₁) → f 2 = some (.other m₂) →
      f 3 = some (.other m₃) →
      FacebookClient.SendReply f =
        ⟨.error (.other "failed after 3 attempts"), [1, 2, 3], [500, 1000]⟩) := by
  refine ⟨?_, ?_, ?_, ?_, ?_, ?_, ?_, ?_⟩
  · have h := sendReplyAux_attempts_le f 3 1 [] []
    simpa [FacebookClient.SendReply] using h
  · intro h1
    simp [FacebookClient.SendReply, FacebookClient.sendReplyAux, h1]
  · intro e h1 he
    simp [FacebookClient.SendReply, FacebookClient.sendReplyAux, h1, he]
  · intro m h1 h2
    simp [FacebookClient.SendReply, FacebookClient.sendReplyAux, h1, h2,
      SendError.isTerminal]
  · intro m e h1 h2 he
    have ho : (SendError.other m).isTerminal = false := rfl
    simp [FacebookClient.SendReply, FacebookClient.sendReplyAux, h1, h2, he, ho]
  · intro m₁ m₂ h1 h2 h3
    simp [FacebookClient.SendReply, FacebookClient.sendReplyAux, h1, h2, h3,
      SendError.isTerminal]
  · intro m₁ m₂ e h1 h2 h3 he
    have ho₁ : (SendError.other m₁).isTerminal = false := rfl
    have ho₂ : (SendError.other m₂).isTerminal = false := rfl
    simp [FacebookClient.SendReply, FacebookClient.sendReplyAux, h1, h2, h3, he,
      ho₁, ho₂]
  · intro m₁ m₂ m₃ h1 h2 h3
    simp [FacebookClient.SendReply, FacebookClient.sendReplyAux, h1, h2, h3,
      SendError.isTerminal]

/-- C4 witness: with a transient failure on attempt 1 and success on
attempt 2, `SendReply` makes exactly two attempts with one 500 ms
backoff; and a terminal token-expiry failure on attempt 1 returns
immediately with no sleep. -/
theorem sendReply_retry_policy_witness :
    FacebookClient.SendReply fRetryEx = ⟨.ok (), [1, 2], [500]⟩ ∧
    FacebookClient.SendReply (fun _ => some .tokenExpired) =
      ⟨.error .tokenExpired, [1], []⟩ :=
  ⟨(sendReply_retry_policy fRetryEx).2.2.2.1 "network timeout" rfl rfl,
   (sendReply_retry_policy (fun _ => some .tokenExpired)).2.2.1 .tokenExpired rfl rfl⟩

/-- C8: When the outbound gateway reports `ErrTokenExpired`, the reply
handler deactivates the owning page before responding — its only effect
is `DeactivatePage pageID`, under which every matching page row has
`is_active = false` — and the HTTP response carries the fixed
non-technical operator message (400, `msgPageDisconnected`), not the
internal gateway error text; on `ErrRateLimited` it answers 429 with
the slow-down message and deactivates nothing. -/
theorem dashboard_sendReply_token_death (o : DashboardOracle)
    (req : ReplyRequest) (platformID pageID token : String) (pages : List Page)
    (hid : req.conversationID ≠ 0) (htext : trimSpace req.text ≠ "")
    (hconv : o.convLookup req.conversationID = .ok (some (platformID, pageID)))
    (htok : o.getPageAccessToken pageID = .ok token) :
    (o.fbSendResult platformID token req.text = .error .tokenExpired →
      (DashboardHandler.SendReply o (some req)).effects = [.deactivatePage pageID] ∧
      (∀ p ∈ applyDashboardEffects pages
          (DashboardHandler.SendReply o (some req)).effects,
        p.pageID = pageID → p.isActive = false) ∧
      (DashboardHandler.SendReply o (some req)).status = 400 ∧
      (DashboardHandler.SendReply o (some req)).message = msgPageDisconnected ∧
      (DashboardHandler.SendReply o (some req)).message ≠
        "facebook access token expired or invalid") ∧
    (o.fbSendResult platformID token req.text = .error .rateLimited →
      (DashboardHandler.SendReply o (some req)).status = 429 ∧
      (DashboardHandler.SendReply o (some req)).message = msgRateLimited ∧
      (∀ pid, DashboardEffect.deactivatePage pid ∉
        (DashboardHandler.SendReply o (some req)).effects)) := by
  constructor
  · intro hsend
    have hres : DashboardHandler.SendReply o (some req) =
        { status := 400, message := msgPageDisconnected,
          effects := [.deactivatePage pageID] } := by
      simp [DashboardHandler.SendReply, hid, htext, hconv, htok, hsend]
    refine ⟨by rw [hres], ?_, by rw [hres], by rw [hres], ?_⟩
    · rw [hres]
      simp only [applyDashboardEffects, List.foldl_cons, List.foldl_nil,
        MariaDBRepository.DeactivatePage]
      intro p hp hpid
      obtain ⟨q, _, hq⟩ := List.mem_map.mp hp
      by_cases hqid : q.pageID = pageID
      · rw [if_pos hqid] at hq
        rw [← hq]
      · rw [if_neg hqid] at hq
        rw [← hq] at hpid
        exact absurd hpid hqid
    · rw [hres]
      show msgPageDisconnected ≠ "facebook access token expired or invalid"
      decide
  · intro hsend
    have hres : DashboardHandler.SendReply o (some req) =
        { status := 429, message := msgRateLimited, effects := [] } := by
      simp [DashboardHandler.SendReply, hid, htext, hconv, htok, hsend]
    refine ⟨by rw [hres], by rw [hres], ?_⟩
    intro pid
    rw [hres]
    simp

/-- C8 witness: the concrete token-expired oracle deactivates
`"page_1"`, and the concrete rate-limited oracle answers 429. -/
theorem dashboard_sendReply_token_death_witness :
    (DashboardHandler.SendReply dashTokenExpiredEx (some replyReqEx)).effects =
      [.deactivatePage "page_1"] ∧
    (DashboardHandler.SendReply dashRateLimitedEx (some replyReqEx)).status = 429 :=
  ⟨((dashboard_sendReply_token_death dashTokenExpiredEx replyReqEx "user_1"
      "page_1" "tok" pagesEx (by decide) (by decide) rfl rfl).1 rfl).1,
   ((dashboard_sendReply_token_death dashRateLimitedEx replyReqEx "user_1"
      "page_1" "tok" pagesEx (by decide) (by decide) rfl rfl).2 rfl).1⟩

/-- C5: evaluation of `GetOrCreateByPlatformID` at the racing input —
the lookup sees no row and the insert hits the `unique_conversation`
key — shows the code returns the error `"create conversation"` instead
of retrying the lookup and returning the existing conversation id, as
the claim (and §4.4 of the specification) requires. -/
theorem getOrCreate_insert_conflict_returns_error :
    MariaDBRepository.GetOrCreateByPlatformID convRaceEx 1 "user_1" "page_1" =
      .error "create conversation" := rfl

end ImmortalChat
